import Mathlib

/-!
Verification development for the production-dashboard repository.

The embedding translates, from the source:
  * src/core.py        — normalize_status, parse_sensor_message, evaluate_alarm
  * src/dashboard_app.py — SharedApiState.add_alarm / clear_alarms,
    SensorState, MainWindow._on_timer_tick message processing (connection
    events, sensor data, alarm latching, global status precedence),
    MainWindow._append_alarm, _clear_alarms, _reset_all_sensors_to_default,
    _send_remote_command.

Modelling conventions:
  * Python floats are modelled exactly: finite values as rationals plus the
    non-finite values inf, -inf, nan (`PyFloat`).  IEEE rounding is not
    modelled; JSON decimal literals are taken at their exact rational value.
  * Values flowing through the dashboard tick are rationals (the tick applies
    Python float() to wire values that are numbers, on which it is the
    identity up to rounding).
  * json.loads is not re-implemented: the codec takes `Option PyVal`, where
    `none` stands for a line json.loads rejects (or a blank line) and
    `some v` for the decoded Python value.
  * str.strip / str.upper are modelled over the ASCII range, which covers
    every string the program compares against.
  * Purely visual operations (Qt table painting, pyqtgraph plotting) and the
    API mirror of per-sensor snapshots are omitted; they read state but do
    not feed back into any state the claims mention.
-/

namespace Dashboard

/-- ASCII whitespace as recognised by Python str.strip / float. -/
def isPySpace (c : Char) : Bool :=
  c = ' ' || c = '\t' || c = '\n' || c = '\r' || c = '\x0b' || c = '\x0c'

/-- Python str.strip(): drop leading and trailing whitespace. -/
def pyStrip (s : String) : String :=
  String.mk (((s.toList.dropWhile isPySpace).reverse.dropWhile isPySpace).reverse)

/-- Python str.upper(), modelled on the ASCII range. -/
def pyUpper (s : String) : String :=
  String.mk (s.toList.map Char.toUpper)

/-- Python str.lower(), modelled on the ASCII range. -/
def pyLower (s : String) : String :=
  String.mk (s.toList.map Char.toLower)

/-- Case-insensitive string equality (the comparison claim C3 speaks about). -/
def eqCaseInsensitive (a b : String) : Bool :=
  pyUpper a = pyUpper b

/-- A Python float: a finite rational, or one of the non-finite values
float("inf"), float("-inf"), float("nan"). -/
inductive PyFloat where
  | finite (q : ℚ)
  | inf
  | neginf
  | nan
deriving DecidableEq

/-- Whether a Python float is a finite number. -/
def PyFloat.isFinite : PyFloat → Bool
  | .finite _ => true
  | _ => false

/-- A Python value as produced by json.loads (dicts are association lists;
json.loads keeps the last binding of a duplicated key, so its dicts have
distinct keys and lookup order is immaterial). -/
inductive PyVal where
  | vnull
  | vbool (b : Bool)
  | vnum (x : PyFloat)
  | vstr (s : String)
  | vlist (xs : List PyVal)
  | vobj (fields : List (String × PyVal))

/-- Model of Python str() applied to a decoded JSON value.  Only the fact
that str() of a non-string is never empty nor whitespace-only is relied on by
the code (parse_sensor_message checks stripped non-emptiness), so the repr of
numbers and containers is coarse. -/
def pyStr : PyVal → String
  | .vnull => "None"
  | .vbool true => "True"
  | .vbool false => "False"
  | .vnum (.finite q) => toString q
  | .vnum .inf => "inf"
  | .vnum .neginf => "-inf"
  | .vnum .nan => "nan"
  | .vstr s => s
  | .vlist _ => "[...]"
  | .vobj _ => "\x7b...\x7d"

/-- Value of a digit character. -/
def digitVal (c : Char) : ℕ := c.toNat - '0'.toNat

/-- Natural number denoted by a list of digit characters (most significant
first). -/
def digitsToNat (cs : List Char) : ℕ :=
  cs.foldl (fun acc c => 10 * acc + digitVal c) 0

/-- Parse the exponent tail of a Python float literal: an optional sign and
at least one digit, consuming the whole input. -/
def parseExpTail (cs : List Char) : Option ℤ :=
  let (sign, rest) : Bool × List Char :=
    match cs with
    | '+' :: r => (false, r)
    | '-' :: r => (true, r)
    | _ => (false, cs)
  if rest ≠ [] ∧ rest.all Char.isDigit then
    some (if sign then -(digitsToNat rest : ℤ) else (digitsToNat rest : ℤ))
  else none

/-- Parse an unsigned decimal float literal (digits, optional fraction,
optional exponent), consuming the whole input; exact rational value.
Underscored digit groups and non-ASCII digits are out of the modelled
fragment. -/
def parseUnsignedDecimal (cs : List Char) : Option ℚ :=
  let (intPart, r1) := cs.span Char.isDigit
  let (fracPart, r2) : List Char × List Char :=
    match r1 with
    | '.' :: rest => rest.span Char.isDigit
    | _ => ([], r1)
  let hasDigits : Bool :=
    match r1 with
    | '.' :: _ => !intPart.isEmpty || !fracPart.isEmpty
    | _ => !intPart.isEmpty
  if hasDigits then
    let mantissa : ℚ :=
      (digitsToNat intPart : ℚ) + (digitsToNat fracPart : ℚ) / ((10 : ℚ) ^ fracPart.length)
    match r2 with
    | [] => some mantissa
    | 'e' :: rest =>
        (parseExpTail rest).map (fun e => mantissa * (10 : ℚ) ^ e)
    | 'E' :: rest =>
        (parseExpTail rest).map (fun e => mantissa * (10 : ℚ) ^ e)
    | _ => none
  else none

/-- Model of Python float() applied to a string: strip whitespace, optional
sign, then either inf / infinity / nan (case-insensitive) or a decimal
literal.  Returns none where float() raises ValueError. -/
def pyFloatOfString (s : String) : Option PyFloat :=
  let t := (pyStrip s).toList.map Char.toLower
  let (neg, body) : Bool × List Char :=
    match t with
    | '+' :: r => (false, r)
    | '-' :: r => (true, r)
    | _ => (false, t)
  if body = "inf".toList ∨ body = "infinity".toList then
    some (if neg then PyFloat.neginf else PyFloat.inf)
  else if body = "nan".toList then
    some PyFloat.nan
  else
    (parseUnsignedDecimal body).map (fun q => PyFloat.finite (if neg then -q else q))

/-- Model of Python float() applied to a decoded JSON value; none where
float() raises TypeError or ValueError (both caught by the codec). -/
def pyFloat : PyVal → Option PyFloat
  | .vnum x => some x
  | .vbool b => some (.finite (if b then 1 else 0))
  | .vstr s => pyFloatOfString s
  | .vnull => none
  | .vlist _ => none
  | .vobj _ => none

/-- core.normalize_status: str(status).strip().upper(), then anything other
than OK becomes FAULT. -/
def normalize_status (status : PyVal) : String :=
  let s := pyUpper (pyStrip (pyStr status))
  if s = "OK" then "OK" else "FAULT"

/-- The dictionary produced by core.parse_sensor_message on success
(the constant "_type": "data" entry is implicit). -/
structure DataFrame where
  sensor : String
  value : PyFloat
  ts : String
  status : String
deriving DecidableEq

/-- Outcome of core.parse_sensor_message: a data frame, the None return
(malformed input), or an uncaught exception (msg.keys() on a non-dict raises
AttributeError, which the function does not catch). -/
inductive DecodeResult where
  | frame (f : DataFrame)
  | malformed
  | raised
deriving DecidableEq

/-- Field lookup in a decoded JSON object. -/
def getField (fields : List (String × PyVal)) (k : String) : Option PyVal :=
  fields.lookup k

/-- core.parse_sensor_message, from the point where json.loads has run: the
argument is none when the line was blank or json.loads raised
JSONDecodeError (both return None in the source), some v otherwise. -/
def parse_sensor_message (j : Option PyVal) : DecodeResult :=
  match j with
  | none => .malformed
  | some (.vobj fields) =>
      match getField fields "sensor", getField fields "value",
            getField fields "ts", getField fields "status" with
      | some vs, some vv, some vt, some vst =>
          match pyFloat vv with
          | none => .malformed
          | some x =>
              let sensor := pyStrip (pyStr vs)
              if sensor = "" then .malformed
              else
                let ts := pyStrip (pyStr vt)
                if ts = "" then .malformed
                else .frame ⟨sensor, x, ts, normalize_status vst⟩
      | _, _, _, _ => .malformed
  | some _ => .raised

/-- core.evaluate_alarm (values taken at their rational magnitude). -/
def evaluate_alarm (value : Option ℚ) (low high : ℚ) (status : String) :
    Option String :=
  match value with
  | none => none
  | some v =>
      if normalize_status (PyVal.vstr status) ≠ "OK" then none
      else if v < low then some "LOW_LIMIT"
      else if v > high then some "HIGH_LIMIT"
      else none

/-- The status normalization inlined in DashboardTCPServerWorker.run:
str(status).upper(), then anything outside OK / FAULT becomes FAULT. -/
def worker_normalize_status (status : PyVal) : String :=
  let s := pyUpper (pyStr status)
  if s = "OK" ∨ s = "FAULT" then s else "FAULT"

/-- One row of the dashboard alarm log and of SharedApiState alarms:
(time, sensor, value, alarm type). -/
structure AlarmRecord where
  time : String
  sensor : String
  value : ℚ
  kind : String
deriving DecidableEq

/-- SharedApiState.add_alarm: append, then keep only the last cap entries
(the source slices with the cap as default 500). -/
def add_alarm (cap : ℕ) (alarms : List AlarmRecord) (a : AlarmRecord) :
    List AlarmRecord :=
  let l := alarms ++ [a]
  if cap < l.length then l.drop (l.length - cap) else l

/-- The dataclass SensorState of dashboard_app.py.  t_buf / v_buf are the
deque(maxlen=600) sample histories. -/
structure SensorState where
  name : String
  low : ℚ
  high : ℚ
  value : Option ℚ := none
  ts : String := "-"
  status : String := "N/A"
  in_alarm : Bool := false
  t_buf : List ℚ := []
  v_buf : List ℚ := []
deriving DecidableEq

/-- Append to a deque(maxlen=600): the oldest entry is evicted once the
buffer is full. -/
def pushBuf (b : List ℚ) (x : ℚ) : List ℚ :=
  let b1 := b ++ [x]
  if 600 < b1.length then b1.drop (b1.length - 600) else b1

/-- One sensor entry of the sensors configuration list. -/
structure SensorCfg where
  name : String
  low : ℚ
  high : ℚ
deriving DecidableEq

/-- A fresh SensorState as built in MainWindow.__init__ from one config
entry. -/
def initSensor (c : SensorCfg) : SensorState :=
  { name := c.name, low := c.low, high := c.high }

/-- An operator command as built by _send_remote_command (the payload is
attached only when truthy, mirroring the if payload check). -/
structure Command where
  cmd : String
  ts : String
  payload : Option (List (String × PyVal)) := none

/-- A message consumed by MainWindow._on_timer_tick from the worker queue:
a connection event (its state field kept as the raw string), a simulator log
frame, a detailed snapshot frame, or a sensor data frame.  Data values are
restricted to numbers (see the header note on float()). -/
inductive Msg where
  | conn (state : String)
  | simLog
  | simSnapshot
  | data (sensor : String) (value : ℚ) (ts : String) (status : String)
deriving DecidableEq

/-- Whether a message is a sensor data frame. -/
def Msg.isData : Msg → Bool
  | .data _ _ _ _ => true
  | _ => false

/-- The sensor a data message targets, if any. -/
def Msg.dataSensor : Msg → Option String
  | .data n _ _ _ => some n
  | _ => none

/-- The state MainWindow carries across timer ticks, restricted to the
ingestion/alarm/command core: per-sensor states (config order), the two
connection flags, the alarm log table, and the SharedApiState alarm ring and
system status; cmdQueue is the GUI-to-worker command queue. -/
structure DashState where
  sensors : List SensorState
  clientConnected : Bool
  hasReceivedData : Bool
  globalStatus : String
  alarmTable : List AlarmRecord
  apiAlarms : List AlarmRecord
  cmdQueue : List Command

/-- MainWindow state right after __init__ for a given sensor configuration
(duplicate names are a fatal startup error and excluded from the model). -/
def initState (cfg : List SensorCfg) : DashState :=
  { sensors := cfg.map initSensor
    clientConnected := false
    hasReceivedData := false
    globalStatus := "LISTENING"
    alarmTable := []
    apiAlarms := []
    cmdQueue := [] }

/-- self.sensors[name] lookup (the dict holds one entry per name). -/
def findSensor (s : DashState) (n : String) : Option SensorState :=
  s.sensors.find? (fun st => st.name == n)

/-- Write back the updated state of the sensor called n. -/
def updateSensorNamed (l : List SensorState) (n : String) (st2 : SensorState) :
    List SensorState :=
  l.map (fun st => if st.name == n then st2 else st)

/-- MainWindow._reset_all_sensors_to_default on one SensorState. -/
def resetSensorToDefault (st : SensorState) : SensorState :=
  { st with value := none, ts := "-", status := "N/A", in_alarm := false,
            t_buf := [], v_buf := [] }

/-- MainWindow._reset_all_sensors_to_default (the table / plot clearing it
also performs is visual only). -/
def resetAllSensors (s : DashState) : DashState :=
  { s with sensors := s.sensors.map resetSensorToDefault }

/-- MainWindow._append_alarm: append a row to the alarm table, evict the
oldest row past 500, and mirror the record into SharedApiState.add_alarm. -/
def appendAlarm (s : DashState) (ts sensor : String) (v : ℚ) (ty : String) :
    DashState :=
  let table1 := s.alarmTable ++ [⟨ts, sensor, v, ty⟩]
  let table2 := if 500 < table1.length then table1.drop 1 else table1
  { s with alarmTable := table2
           apiAlarms := add_alarm 500 s.apiAlarms ⟨ts, sensor, v, ty⟩ }

/-- One iteration of the message-draining loop in MainWindow._on_timer_tick:
connection events fold into the lifecycle flags (DISCONNECTED also resets all
sensors), log/snapshot frames only feed the log viewer, and a data frame for
a configured sensor updates its SensorState and runs the edge-triggered alarm
logic. -/
def processMsg (s : DashState) (now : ℚ) (m : Msg) : DashState :=
  match m with
  | .conn cs =>
      if cs = "LISTENING" then
        { s with clientConnected := false, hasReceivedData := false,
                 globalStatus := "LISTENING" }
      else if cs = "CONNECTED" then
        { s with clientConnected := true, hasReceivedData := false,
                 globalStatus := "CONNECTED" }
      else if cs = "DISCONNECTED" then
        let s1 := resetAllSensors s
        { s1 with clientConnected := false, hasReceivedData := false,
                  globalStatus := "LISTENING" }
      else s
  | .simLog => s
  | .simSnapshot => s
  | .data name v ts status =>
      match findSensor s name with
      | none => s
      | some st =>
          let st1 : SensorState :=
            { st with value := some v, ts := ts, status := pyUpper status,
                      t_buf := pushBuf st.t_buf now,
                      v_buf := pushBuf st.v_buf v }
          let s1 := { s with hasReceivedData := true }
          let latched : SensorState := { st1 with in_alarm := true }
          let unlatched : SensorState := { st1 with in_alarm := false }
          let withSensor : SensorState → DashState := fun st2 =>
            { s1 with sensors := updateSensorNamed s1.sensors name st2 }
          if st1.status = "OK" then
            if v < st1.low then
              if st1.in_alarm = false then
                appendAlarm (withSensor latched) st1.ts st1.name v "LOW_LIMIT"
              else
                withSensor st1
            else if v > st1.high then
              if st1.in_alarm = false then
                appendAlarm (withSensor latched) st1.ts st1.name v "HIGH_LIMIT"
              else
                withSensor st1
            else
              withSensor unlatched
          else
            withSensor unlatched

/-- Drain a batch of queued messages in arrival order. -/
def processMsgs (s : DashState) (now : ℚ) (msgs : List Msg) : DashState :=
  msgs.foldl (fun acc m => processMsg acc now m) s

/-- The is_alarm_now recomputation of the refresh loop: status OK, a value
present, and that value outside the limits. -/
def isAlarmNow (st : SensorState) : Bool :=
  decide (st.status = "OK") &&
    (match st.value with
     | none => false
     | some v => decide (v < st.low) || decide (v > st.high))

/-- The tail of MainWindow._on_timer_tick after the queue is drained: an
early return while not connected, the connected-waiting banner while no data
has arrived, else the ALARM > WARNING > OK > CONNECTED precedence computed
from the per-sensor rows (row painting, plotting and per-sensor API mirroring
are visual/read-only and omitted). -/
def refreshStatus (s : DashState) : DashState :=
  if s.clientConnected = false then s
  else if s.hasReceivedData = false then { s with globalStatus := "CONNECTED" }
  else
    let anyAlarm := s.sensors.any isAlarmNow
    let anyFault := s.sensors.any (fun st => decide (st.status = "FAULT"))
    let anyOk := s.sensors.any (fun st => decide (st.status = "OK"))
    if anyAlarm then { s with globalStatus := "ALARM" }
    else if anyFault then { s with globalStatus := "WARNING" }
    else if anyOk then { s with globalStatus := "OK" }
    else { s with globalStatus := "CONNECTED" }

/-- One full MainWindow._on_timer_tick: drain the batch, then refresh the
derived view. -/
def onTimerTick (s : DashState) (now : ℚ) (msgs : List Msg) : DashState :=
  refreshStatus (processMsgs s now msgs)

/-- Result of an operator command request. -/
inductive CmdResult where
  | accepted
  | rejected
deriving DecidableEq

/-- MainWindow._send_remote_command: reject (with a logged warning) while no
producer is connected, else enqueue the framed command; an empty payload dict
is falsy in Python and hence not attached. -/
def sendRemoteCommand (s : DashState) (nowTs : String) (cmdName : String)
    (payload : Option (List (String × PyVal))) : DashState × CmdResult :=
  if s.clientConnected = false then (s, .rejected)
  else
    let p : Option (List (String × PyVal)) :=
      match payload with
      | some l => if l.isEmpty then none else some l
      | none => none
    ({ s with cmdQueue := s.cmdQueue ++ [{ cmd := cmdName, ts := nowTs, payload := p }] },
     .accepted)

/-- MainWindow._clear_alarms: clear the alarm table and the SharedApiState
ring unconditionally, then best-effort notify the simulator only when
connected. -/
def clearAlarms (s : DashState) (nowTs : String) : DashState :=
  let s1 := { s with alarmTable := ([] : List AlarmRecord),
                     apiAlarms := ([] : List AlarmRecord) }
  if s1.clientConnected then
    (sendRemoteCommand s1 nowTs "CLEAR_ALARMS" none).1
  else s1

/-- The global-status precedence as the specification states it: ALARM if
any sensor is currently in alarm, else WARNING on any FAULT, else OK on any
OK reading, else CONNECTED when a producer is attached and LISTENING when
none is.  This is the spec-side definition claim C5 compares against the
code's refresh. -/
def derivedGlobalStatus (s : DashState) : String :=
  if s.clientConnected = false then "LISTENING"
  else if s.hasReceivedData = false then "CONNECTED"
  else if s.sensors.any (fun st => st.in_alarm) then "ALARM"
  else if s.sensors.any (fun st => decide (st.status = "FAULT")) then "WARNING"
  else if s.sensors.any (fun st => decide (st.status = "OK")) then "OK"
  else "CONNECTED"

/-- Invariant: every sensor's latch agrees with the recomputed
is_alarm_now of its latest reading. -/
def invAlarmB (s : DashState) : Bool :=
  s.sensors.all (fun st => st.in_alarm == isAlarmNow st)

/-- Invariant: the stored global status is LISTENING while no producer is
connected and CONNECTED while one is connected but has sent no data. -/
def connInvB (s : DashState) : Bool :=
  (if s.clientConnected then true else s.globalStatus == "LISTENING") &&
  (if s.clientConnected && !s.hasReceivedData then s.globalStatus == "CONNECTED"
   else true)

/-! ### Helper lemmas about the embedding -/

theorem findSensor_name {s : DashState} {n : String} {st : SensorState}
    (h : findSensor s n = some st) : st.name = n := by
  have := List.find?_some h
  simpa using this

theorem find?_updateSensorNamed_self (l : List SensorState) (n : String)
    (st2 : SensorState) (h2 : st2.name = n) :
    (updateSensorNamed l n st2).find? (fun st => st.name == n) =
      (l.find? (fun st => st.name == n)).map (fun _ => st2) := by
  induction l with
  | nil => rfl
  | cons hd tl ih =>
      by_cases hh : hd.name = n
      · simp [updateSensorNamed, List.find?_cons, hh, h2]
      · simpa [updateSensorNamed, List.find?_cons, hh] using ih

theorem updateSensorNamed_cons (hd : SensorState) (tl : List SensorState)
    (n : String) (st2 : SensorState) :
    updateSensorNamed (hd :: tl) n st2 =
      (if hd.name == n then st2 else hd) :: updateSensorNamed tl n st2 := rfl

theorem find?_updateSensorNamed_other (l : List SensorState) (n m : String)
    (st2 : SensorState) (h2 : st2.name = n) (hne : m ≠ n) :
    (updateSensorNamed l n st2).find? (fun st => st.name == m) =
      l.find? (fun st => st.name == m) := by
  induction l with
  | nil => rfl
  | cons hd tl ih =>
      rw [updateSensorNamed_cons, List.find?_cons, List.find?_cons]
      by_cases hh : hd.name = n
      · have e1 : (hd.name == n) = true := by simp [hh]
        have hm : (hd.name == m) = false := by
          rw [beq_eq_false_iff_ne, hh]
          exact fun hcon => hne hcon.symm
        have hm2 : (st2.name == m) = false := by
          rw [beq_eq_false_iff_ne, h2]
          exact fun hcon => hne hcon.symm
        simp only [e1, if_true, hm, hm2]
        exact ih
      · have e1 : (hd.name == n) = false := by simp [hh]
        simp only [e1, Bool.false_eq_true, if_false]
        cases hb : (hd.name == m) with
        | true => rfl
        | false => exact ih

theorem resetSensorToDefault_name (st : SensorState) :
    (resetSensorToDefault st).name = st.name := rfl

theorem find?_map_reset (l : List SensorState) (n : String) :
    (l.map resetSensorToDefault).find? (fun st => st.name == n) =
      (l.find? (fun st => st.name == n)).map resetSensorToDefault := by
  induction l with
  | nil => rfl
  | cons hd tl ih =>
      rw [List.map_cons, List.find?_cons, List.find?_cons]
      have e : ((resetSensorToDefault hd).name == n) = (hd.name == n) := rfl
      rw [e]
      cases hb : (hd.name == n) with
      | true => rfl
      | false => exact ih

theorem findSensor_resetAllSensors (s : DashState) (n : String) :
    findSensor (resetAllSensors s) n =
      (findSensor s n).map resetSensorToDefault := by
  show (s.sensors.map resetSensorToDefault).find? (fun st => st.name == n) = _
  exact find?_map_reset s.sensors n

/-- Whether the fresh reading of a sensor puts it in alarm: OK status and a
value outside the limits. -/
def alarmedB (v : ℚ) (u : String) (st : SensorState) : Bool :=
  decide (pyUpper u = "OK") && (decide (v < st.low) || decide (v > st.high))

/-- Whether processing a fresh reading flips the latch false-to-true and
hence appends an AlarmRecord. -/
def firedB (v : ℚ) (u : String) (st : SensorState) : Bool :=
  alarmedB v u st && !st.in_alarm

/-- The SensorState after a fresh reading is folded in. -/
def updatedSensor (now v : ℚ) (ts u : String) (st : SensorState) :
    SensorState :=
  { st with value := some v, ts := ts, status := pyUpper u,
            t_buf := pushBuf st.t_buf now, v_buf := pushBuf st.v_buf v,
            in_alarm := alarmedB v u st }

/-- The data branch of processMsg on a configured sensor, in closed form:
the latch becomes true iff the fresh reading is out-of-range with OK status,
and an alarm record is appended exactly when that latch flips false to
true. -/
def dataStep (s : DashState) (now v : ℚ) (n ts u : String) (st : SensorState) :
    DashState :=
  let s1 : DashState :=
    { s with hasReceivedData := true,
             sensors := updateSensorNamed s.sensors n (updatedSensor now v ts u st) }
  if firedB v u st then
    appendAlarm s1 ts st.name v (if v < st.low then "LOW_LIMIT" else "HIGH_LIMIT")
  else s1

theorem processMsg_data_found (s : DashState) (now v : ℚ) (n ts u : String)
    (st : SensorState) (h : findSensor s n = some st) :
    processMsg s now (.data n v ts u) = dataStep s now v n ts u st := by
  simp only [processMsg, h, dataStep, firedB, alarmedB, updatedSensor]
  by_cases h1 : pyUpper u = "OK"
  · by_cases h2 : v < st.low
    · by_cases h4 : st.in_alarm
      · simp [h1, h2, h4, appendAlarm]
      · simp [h1, h2, h4, appendAlarm]
    · by_cases h3 : v > st.high
      · by_cases h4 : st.in_alarm
        · simp [h1, h2, h3, h4, appendAlarm]
        · simp [h1, h2, h3, h4, appendAlarm]
      · simp [h1, h2, h3]
  · simp [h1]

theorem processMsg_data_notfound (s : DashState) (now v : ℚ) (n ts u : String)
    (h : findSensor s n = none) :
    processMsg s now (.data n v ts u) = s := by
  simp only [processMsg, h]

theorem appendAlarm_sensors (s : DashState) (ts n : String) (v : ℚ)
    (ty : String) : (appendAlarm s ts n v ty).sensors = s.sensors := rfl

theorem processMsgs_nil (s : DashState) (now : ℚ) : processMsgs s now [] = s :=
  rfl

theorem processMsgs_cons (s : DashState) (now : ℚ) (m : Msg) (ms : List Msg) :
    processMsgs s now (m :: ms) = processMsgs (processMsg s now m) now ms :=
  rfl

theorem processMsgs_append (s : DashState) (now : ℚ) (ms₁ ms₂ : List Msg) :
    processMsgs s now (ms₁ ++ ms₂) = processMsgs (processMsgs s now ms₁) now ms₂ := by
  simp [processMsgs, List.foldl_append]

theorem updatedSensor_name (now v : ℚ) (ts u : String) (st : SensorState) :
    (updatedSensor now v ts u st).name = st.name := rfl

theorem dataStep_sensors (s : DashState) (now v : ℚ) (n ts u : String)
    (st : SensorState) :
    (dataStep s now v n ts u st).sensors =
      updateSensorNamed s.sensors n (updatedSensor now v ts u st) := by
  simp only [dataStep]
  split <;> rfl

theorem dataStep_clientConnected (s : DashState) (now v : ℚ) (n ts u : String)
    (st : SensorState) :
    (dataStep s now v n ts u st).clientConnected = s.clientConnected := by
  simp only [dataStep]
  split <;> rfl

theorem dataStep_hasReceivedData (s : DashState) (now v : ℚ) (n ts u : String)
    (st : SensorState) :
    (dataStep s now v n ts u st).hasReceivedData = true := by
  simp only [dataStep]
  split <;> rfl

theorem dataStep_globalStatus (s : DashState) (now v : ℚ) (n ts u : String)
    (st : SensorState) :
    (dataStep s now v n ts u st).globalStatus = s.globalStatus := by
  simp only [dataStep]
  split <;> rfl

theorem dataStep_cmdQueue (s : DashState) (now v : ℚ) (n ts u : String)
    (st : SensorState) :
    (dataStep s now v n ts u st).cmdQueue = s.cmdQueue := by
  simp only [dataStep]
  split <;> rfl

theorem dataStep_alarms_nofire (s : DashState) (now v : ℚ) (n ts u : String)
    (st : SensorState) (h : firedB v u st = false) :
    (dataStep s now v n ts u st).alarmTable = s.alarmTable ∧
      (dataStep s now v n ts u st).apiAlarms = s.apiAlarms := by
  simp only [dataStep, h]
  exact ⟨rfl, rfl⟩

theorem dataStep_alarms_fire (s : DashState) (now v : ℚ) (n ts u : String)
    (st : SensorState) (h : firedB v u st = true)
    (hlen1 : s.alarmTable.length ≤ 499) (hlen2 : s.apiAlarms.length ≤ 499) :
    (dataStep s now v n ts u st).alarmTable =
      s.alarmTable ++ [⟨ts, st.name, v, if v < st.low then "LOW_LIMIT" else "HIGH_LIMIT"⟩] ∧
    (dataStep s now v n ts u st).apiAlarms =
      s.apiAlarms ++ [⟨ts, st.name, v, if v < st.low then "LOW_LIMIT" else "HIGH_LIMIT"⟩] := by
  have c1 : ¬ (500 < (s.alarmTable ++ [(⟨ts, st.name, v, if v < st.low then "LOW_LIMIT" else "HIGH_LIMIT"⟩ : AlarmRecord)]).length) := by
    simp only [List.length_append, List.length_cons, List.length_nil]
    omega
  have c2 : ¬ (500 < (s.apiAlarms ++ [(⟨ts, st.name, v, if v < st.low then "LOW_LIMIT" else "HIGH_LIMIT"⟩ : AlarmRecord)]).length) := by
    simp only [List.length_append, List.length_cons, List.length_nil]
    omega
  simp only [dataStep, h, if_true, appendAlarm, add_alarm, c1, if_false]
  constructor
  · simp [c1]
  · rw [if_neg (by simp only [List.length_append, List.length_cons, List.length_nil]; omega)]

theorem findSensor_dataStep_self (s : DashState) (now v : ℚ) (n ts u : String)
    (st : SensorState) (h : findSensor s n = some st) :
    findSensor (dataStep s now v n ts u st) n =
      some (updatedSensor now v ts u st) := by
  have hn : st.name = n := findSensor_name h
  have hn2 : (updatedSensor now v ts u st).name = n := by
    rw [updatedSensor_name, hn]
  show (dataStep s now v n ts u st).sensors.find? (fun x => x.name == n) = _
  rw [dataStep_sensors]
  rw [find?_updateSensorNamed_self s.sensors n (updatedSensor now v ts u st) hn2]
  have : s.sensors.find? (fun x => x.name == n) = some st := h
  rw [this]
  rfl

theorem findSensor_processMsg_data_other (s : DashState) (now v : ℚ)
    (n' ts u n : String) (hne : n ≠ n') :
    findSensor (processMsg s now (.data n' v ts u)) n = findSensor s n := by
  cases hfs : findSensor s n' with
  | none => rw [processMsg_data_notfound s now v n' ts u hfs]
  | some st' =>
      rw [processMsg_data_found s now v n' ts u st' hfs]
      have hn' : (updatedSensor now v ts u st').name = n' := by
        rw [updatedSensor_name, findSensor_name hfs]
      show (dataStep s now v n' ts u st').sensors.find? (fun x => x.name == n) = _
      rw [dataStep_sensors]
      exact find?_updateSensorNamed_other s.sensors n' n
        (updatedSensor now v ts u st') hn' hne

theorem findSensor_processMsg_preserve (s : DashState) (now : ℚ) (m : Msg)
    (n : String) (st : SensorState) (h : findSensor s n = some st) :
    ∃ st', findSensor (processMsg s now m) n = some st' ∧
      st'.name = st.name ∧ st'.low = st.low ∧ st'.high = st.high := by
  cases m with
  | conn cs =>
      by_cases h1 : cs = "LISTENING"
      · exact ⟨st, by simpa [processMsg, h1, findSensor] using h, rfl, rfl, rfl⟩
      · by_cases h2 : cs = "CONNECTED"
        · exact ⟨st, by simpa [processMsg, h1, h2, findSensor] using h, rfl, rfl, rfl⟩
        · by_cases h3 : cs = "DISCONNECTED"
          · refine ⟨resetSensorToDefault st, ?_, rfl, rfl, rfl⟩
            have e : findSensor (processMsg s now (.conn cs)) n =
                findSensor (resetAllSensors s) n := by
              simp [processMsg, h1, h2, h3, findSensor, resetAllSensors]
            rw [e, findSensor_resetAllSensors, h]
            rfl
          · exact ⟨st, by simpa [processMsg, h1, h2, h3, findSensor] using h, rfl, rfl, rfl⟩
  | simLog => exact ⟨st, h, rfl, rfl, rfl⟩
  | simSnapshot => exact ⟨st, h, rfl, rfl, rfl⟩
  | data n' v ts u =>
      by_cases hne : n = n'
      · subst hne
        rw [processMsg_data_found s now v n ts u st h]
        exact ⟨updatedSensor now v ts u st,
          findSensor_dataStep_self s now v n ts u st h, rfl, rfl, rfl⟩
      · rw [findSensor_processMsg_data_other s now v n' ts u n hne]
        exact ⟨st, h, rfl, rfl, rfl⟩

theorem findSensor_processMsgs_preserve (now : ℚ) (msgs : List Msg)
    (s : DashState) (n : String) (st : SensorState)
    (h : findSensor s n = some st) :
    ∃ st', findSensor (processMsgs s now msgs) n = some st' ∧
      st'.name = st.name ∧ st'.low = st.low ∧ st'.high = st.high := by
  induction msgs generalizing s st with
  | nil => exact ⟨st, h, rfl, rfl, rfl⟩
  | cons m ms ih =>
      rw [processMsgs_cons]
      obtain ⟨st1, h1, e1, e2, e3⟩ := findSensor_processMsg_preserve s now m n st h
      obtain ⟨st', h', f1, f2, f3⟩ := ih (processMsg s now m) st1 h1
      exact ⟨st', h', by rw [f1, e1], by rw [f2, e2], by rw [f3, e3]⟩

theorem findSensor_processMsgs_untouched (now : ℚ) (msgs : List Msg)
    (s : DashState) (n : String)
    (hall : ∀ m ∈ msgs, Msg.isData m = true ∧ Msg.dataSensor m ≠ some n) :
    findSensor (processMsgs s now msgs) n = findSensor s n := by
  induction msgs generalizing s with
  | nil => rfl
  | cons m ms ih =>
      rw [processMsgs_cons]
      obtain ⟨hd, hs⟩ := hall m (List.mem_cons_self m ms)
      have tail := fun m' hm' => hall m' (List.mem_cons_of_mem m hm')
      cases m with
      | conn cs => simp [Msg.isData] at hd
      | simLog => simp [Msg.isData] at hd
      | simSnapshot => simp [Msg.isData] at hd
      | data n' v ts u =>
          have hne : n ≠ n' := by
            intro hcon
            exact hs (by rw [Msg.dataSensor, hcon])
          rw [ih (processMsg s now (.data n' v ts u)) tail]
          exact findSensor_processMsg_data_other s now v n' ts u n hne

theorem processMsg_disconnected (s : DashState) (now : ℚ) :
    processMsg s now (.conn "DISCONNECTED") =
      { resetAllSensors s with clientConnected := false,
                               hasReceivedData := false,
                               globalStatus := "LISTENING" } := by
  simp only [processMsg]
  rw [if_neg (by decide), if_neg (by decide)]
  simp

theorem parse_missing_field (fields : List (String × PyVal))
    (h : getField fields "sensor" = none ∨ getField fields "value" = none ∨
         getField fields "ts" = none ∨ getField fields "status" = none) :
    parse_sensor_message (some (.vobj fields)) = .malformed := by
  cases h1 : getField fields "sensor" with
  | none => simp [parse_sensor_message, h1]
  | some vs =>
      cases h2 : getField fields "value" with
      | none => simp [parse_sensor_message, h1, h2]
      | some vv =>
          cases h3 : getField fields "ts" with
          | none => simp [parse_sensor_message, h1, h2, h3]
          | some vt =>
              cases h4 : getField fields "status" with
              | none => simp [parse_sensor_message, h1, h2, h3, h4]
              | some vst =>
                  rcases h with h | h | h | h <;>
                    first
                      | exact absurd h (by rw [h1]; exact fun hc => Option.noConfusion hc)
                      | exact absurd h (by rw [h2]; exact fun hc => Option.noConfusion hc)
                      | exact absurd h (by rw [h3]; exact fun hc => Option.noConfusion hc)
                      | exact absurd h (by rw [h4]; exact fun hc => Option.noConfusion hc)

theorem parse_bad_value (fields : List (String × PyVal)) (vv : PyVal)
    (hv : getField fields "value" = some vv) (hx : pyFloat vv = none) :
    parse_sensor_message (some (.vobj fields)) = .malformed := by
  cases h1 : getField fields "sensor" with
  | none => simp [parse_sensor_message, h1]
  | some vs =>
      cases h3 : getField fields "ts" with
      | none => simp [parse_sensor_message, h1, hv, h3]
      | some vt =>
          cases h4 : getField fields "status" with
          | none => simp [parse_sensor_message, h1, hv, h3, h4]
          | some vst => simp [parse_sensor_message, h1, hv, h3, h4, hx]

/-! ### Claim theorems -/

/-- C6: processing a DISCONNECTED connection event resets every configured
sensor to its initial default (no value, status N/A, latch cleared, empty
sample history) while keeping its name and low/high thresholds, for every
sensor simultaneously and from any prior state. -/
theorem C6_disconnect_resets_all_sensors (s : DashState) (now : ℚ) (i : ℕ)
    (h : i < s.sensors.length) :
    (processMsg s now (.conn "DISCONNECTED")).sensors.length = s.sensors.length ∧
    ∃ st₀ st', s.sensors[i]? = some st₀ ∧
      (processMsg s now (.conn "DISCONNECTED")).sensors[i]? = some st' ∧
      st' = resetSensorToDefault st₀ ∧
      st'.value = none ∧ st'.ts = "-" ∧ st'.status = "N/A" ∧
      st'.in_alarm = false ∧ st'.t_buf = [] ∧ st'.v_buf = [] ∧
      st'.name = st₀.name ∧ st'.low = st₀.low ∧ st'.high = st₀.high := by
  rw [processMsg_disconnected]
  refine ⟨by simp [resetAllSensors], ?_⟩
  refine ⟨s.sensors[i], resetSensorToDefault s.sensors[i], ?_, ?_, rfl,
    rfl, rfl, rfl, rfl, rfl, rfl, rfl, rfl, rfl⟩
  · exact List.getElem?_eq_getElem h
  · show (s.sensors.map resetSensorToDefault)[i]? = _
    rw [List.getElem?_map, List.getElem?_eq_getElem h]
    rfl

/-- C6 witness at a concrete one-sensor state. -/
theorem C6_disconnect_resets_all_sensors_witness :
    (processMsg (initState [⟨"a", 0, 10⟩]) 0 (.conn "DISCONNECTED")).sensors.length =
      (initState [⟨"a", 0, 10⟩]).sensors.length ∧
    ∃ st₀ st', (initState [⟨"a", 0, 10⟩]).sensors[0]? = some st₀ ∧
      (processMsg (initState [⟨"a", 0, 10⟩]) 0 (.conn "DISCONNECTED")).sensors[0]? = some st' ∧
      st' = resetSensorToDefault st₀ ∧
      st'.value = none ∧ st'.ts = "-" ∧ st'.status = "N/A" ∧
      st'.in_alarm = false ∧ st'.t_buf = [] ∧ st'.v_buf = [] ∧
      st'.name = st₀.name ∧ st'.low = st₀.low ∧ st'.high = st₀.high :=
  C6_disconnect_resets_all_sensors (initState [⟨"a", 0, 10⟩]) 0 0 (by decide)

theorem add_alarm_length_le (l : List AlarmRecord) (a : AlarmRecord)
    (h : l.length ≤ 500) : (add_alarm 500 l a).length ≤ 500 := by
  simp only [add_alarm]
  split
  · simp only [List.length_drop, List.length_append, List.length_cons,
      List.length_nil]
    omega
  · simp only [List.length_append, List.length_cons, List.length_nil] at *
    omega

theorem foldl_add_alarm_length (as : List AlarmRecord) (l : List AlarmRecord)
    (h : l.length ≤ 500) : (as.foldl (add_alarm 500) l).length ≤ 500 := by
  induction as generalizing l with
  | nil => exact h
  | cons a tl ih => exact ih (add_alarm 500 l a) (add_alarm_length_le l a h)

/-- C7: the alarm store never exceeds 500 records under any sequence of
appends from empty, and an append at exactly 500 evicts the oldest record,
leaving the 499 survivors in order followed by the new record — exactly 500
records. -/
theorem C7_alarm_store_cap (as : List AlarmRecord) (l : List AlarmRecord)
    (a : AlarmRecord) (h : l.length = 500) :
    (as.foldl (add_alarm 500) []).length ≤ 500 ∧
    add_alarm 500 l a = l.drop 1 ++ [a] ∧
    (add_alarm 500 l a).length = 500 := by
  have hb : add_alarm 500 l a = l.drop 1 ++ [a] := by
    simp only [add_alarm]
    rw [if_pos (by simp [h])]
    have e : (l ++ [a]).length - 500 = 1 := by simp [h]
    rw [e, List.drop_append_of_le_length (by omega)]
  refine ⟨foldl_add_alarm_length as [] (by simp), hb, ?_⟩
  rw [hb]
  simp [h]

/-- C7 witness: the empty fold and an append at a store holding exactly 500
records. -/
theorem C7_alarm_store_cap_witness :
    (([] : List AlarmRecord).foldl (add_alarm 500) []).length ≤ 500 ∧
    add_alarm 500 (List.replicate 500 ⟨"t", "a", 1, "HIGH_LIMIT"⟩) ⟨"u", "b", 2, "LOW_LIMIT"⟩ =
      (List.replicate 500 (⟨"t", "a", 1, "HIGH_LIMIT"⟩ : AlarmRecord)).drop 1 ++ [⟨"u", "b", 2, "LOW_LIMIT"⟩] ∧
    (add_alarm 500 (List.replicate 500 ⟨"t", "a", 1, "HIGH_LIMIT"⟩) ⟨"u", "b", 2, "LOW_LIMIT"⟩).length = 500 :=
  C7_alarm_store_cap [] (List.replicate 500 ⟨"t", "a", 1, "HIGH_LIMIT"⟩)
    ⟨"u", "b", 2, "LOW_LIMIT"⟩ (by rw [List.length_replicate])

/-- C8: issuing any command while no producer is connected is rejected and
does not change the outbound command queue; in particular an empty queue
stays empty, and the command is never buffered for a later reconnect. -/
theorem C8_command_rejected_when_disconnected (s : DashState)
    (nowTs cmdName : String) (payload : Option (List (String × PyVal)))
    (h : s.clientConnected = false) :
    sendRemoteCommand s nowTs cmdName payload = (s, .rejected) ∧
    (sendRemoteCommand s nowTs cmdName payload).1.cmdQueue = s.cmdQueue ∧
    (s.cmdQueue = [] → (sendRemoteCommand s nowTs cmdName payload).1.cmdQueue = []) := by
  simp [sendRemoteCommand, h]

/-- C8 witness at the freshly started (not connected) dashboard. -/
theorem C8_command_rejected_when_disconnected_witness :
    sendRemoteCommand (initState [⟨"a", 0, 10⟩]) "t" "RESTART_SIM" none =
      ((initState [⟨"a", 0, 10⟩]), .rejected) ∧
    (sendRemoteCommand (initState [⟨"a", 0, 10⟩]) "t" "RESTART_SIM" none).1.cmdQueue =
      (initState [⟨"a", 0, 10⟩]).cmdQueue ∧
    ((initState [⟨"a", 0, 10⟩]).cmdQueue = [] →
      (sendRemoteCommand (initState [⟨"a", 0, 10⟩]) "t" "RESTART_SIM" none).1.cmdQueue = []) :=
  C8_command_rejected_when_disconnected (initState [⟨"a", 0, 10⟩]) "t"
    "RESTART_SIM" none rfl

/-- C9: clearing alarms empties both the alarm table and the store's alarm
ring synchronously, whether or not a producer is connected; the CLEAR_ALARMS
notification is queued for the producer exactly when one is connected. -/
theorem C9_clear_alarms_local_always (s : DashState) (nowTs : String) :
    (clearAlarms s nowTs).alarmTable = [] ∧
    (clearAlarms s nowTs).apiAlarms = [] ∧
    (clearAlarms s nowTs).cmdQueue =
      s.cmdQueue ++
        (if s.clientConnected then [{ cmd := "CLEAR_ALARMS", ts := nowTs, payload := none }] else []) := by
  by_cases hc : s.clientConnected
  · simp [clearAlarms, sendRemoteCommand, hc]
  · simp [clearAlarms, sendRemoteCommand, hc]

/-- C10: parse_sensor_message rejects a frame whose sensor or ts field
stringifies to an empty or whitespace-only string, even when all four
required fields are present and the value is numeric. -/
theorem C10_blank_sensor_or_ts_rejected (fields : List (String × PyVal))
    (vs vv vt vst : PyVal) (x : PyFloat)
    (hs : getField fields "sensor" = some vs)
    (hv : getField fields "value" = some vv)
    (ht : getField fields "ts" = some vt)
    (hst : getField fields "status" = some vst)
    (hx : pyFloat vv = some x)
    (hblank : pyStrip (pyStr vs) = "" ∨ pyStrip (pyStr vt) = "") :
    parse_sensor_message (some (.vobj fields)) = .malformed := by
  simp only [parse_sensor_message, hs, hv, ht, hst, hx]
  rcases hblank with he | he
  · rw [if_pos he]
  · by_cases hse : pyStrip (pyStr vs) = ""
    · rw [if_pos hse]
    · rw [if_neg hse, if_pos he]

/-- C10 witness: whitespace-only sensor name, numeric value, all fields
present. -/
theorem C10_blank_sensor_or_ts_rejected_witness :
    parse_sensor_message (some (.vobj [("sensor", .vstr " "), ("value", .vnum (.finite 1)), ("ts", .vstr "t"), ("status", .vstr "OK")])) = .malformed :=
  C10_blank_sensor_or_ts_rejected
    [("sensor", .vstr " "), ("value", .vnum (.finite 1)), ("ts", .vstr "t"), ("status", .vstr "OK")]
    (.vstr " ") (.vnum (.finite 1)) (.vstr "t") (.vstr "OK") (.finite 1)
    rfl rfl rfl rfl rfl (Or.inl (by decide))

/-- C3 counterexample against the claim as stated.  First input: valid JSON
with all four fields and numeric value but empty sensor name — decode
returns malformed, not a frame.  Second input: status equal to ok surrounded
by spaces — decode succeeds with status OK although the input status does not
equal OK case-insensitively (the codec also strips). -/
theorem C3_counterexample :
    parse_sensor_message (some (.vobj [("sensor", .vstr ""), ("value", .vnum (.finite 1)), ("ts", .vstr "t"), ("status", .vstr "OK")])) = .malformed ∧
    parse_sensor_message (some (.vobj [("sensor", .vstr "a"), ("value", .vnum (.finite 1)), ("ts", .vstr "t"), ("status", .vstr " ok ")])) = .frame ⟨"a", .finite 1, "t", "OK"⟩ ∧
    eqCaseInsensitive " ok " "OK" = false := by
  refine ⟨?_, ?_, ?_⟩ <;> decide

/-- C3 amended: for every valid JSON object with all four fields, a numeric
value, and sensor and ts that stringify to non-blank strings, decode succeeds
and the resulting status is OK iff the input status, stripped of surrounding
whitespace, equals OK case-insensitively; any other status becomes FAULT. -/
theorem C3_codec_accepts_and_normalizes (fields : List (String × PyVal))
    (vs vt vst : PyVal) (x : PyFloat)
    (hs : getField fields "sensor" = some vs)
    (hv : getField fields "value" = some (.vnum x))
    (ht : getField fields "ts" = some vt)
    (hst : getField fields "status" = some vst)
    (hsne : pyStrip (pyStr vs) ≠ "") (htne : pyStrip (pyStr vt) ≠ "") :
    ∃ f, parse_sensor_message (some (.vobj fields)) = .frame f ∧
      (f.status = "OK" ↔ eqCaseInsensitive (pyStrip (pyStr vst)) "OK" = true) ∧
      (f.status = "OK" ∨ f.status = "FAULT") := by
  refine ⟨⟨pyStrip (pyStr vs), x, pyStrip (pyStr vt), normalize_status vst⟩, ?_, ?_, ?_⟩
  · simp only [parse_sensor_message, hs, hv, ht, hst, pyFloat]
    rw [if_neg hsne, if_neg htne]
  · show normalize_status vst = "OK" ↔ _
    have hup : pyUpper "OK" = "OK" := by decide
    simp only [normalize_status, eqCaseInsensitive, hup, decide_eq_true_eq]
    constructor
    · intro hok
      by_contra hne
      rw [if_neg hne] at hok
      exact absurd hok (by decide)
    · intro he
      rw [if_pos he]
  · show normalize_status vst = "OK" ∨ normalize_status vst = "FAULT"
    simp only [normalize_status]
    split
    · exact Or.inl rfl
    · exact Or.inr rfl

/-- C3 witness: a fully valid frame with a lowercase status. -/
theorem C3_codec_accepts_and_normalizes_witness :
    ∃ f, parse_sensor_message (some (.vobj [("sensor", .vstr "Temp_C"), ("value", .vnum (.finite 1)), ("ts", .vstr "t"), ("status", .vstr "ok")])) = .frame f ∧
      (f.status = "OK" ↔ eqCaseInsensitive (pyStrip (pyStr (.vstr "ok"))) "OK" = true) ∧
      (f.status = "OK" ∨ f.status = "FAULT") :=
  C3_codec_accepts_and_normalizes
    [("sensor", .vstr "Temp_C"), ("value", .vnum (.finite 1)), ("ts", .vstr "t"), ("status", .vstr "ok")]
    (.vstr "Temp_C") (.vstr "t") (.vstr "ok") (.finite 1)
    rfl rfl rfl rfl (by decide) (by decide)

/-- C4 counterexample against the claim as stated: the line with value "inf"
is valid JSON with all four fields; its value does not parse as a finite
number (Python float accepts it as infinity), yet decode returns a frame
rather than malformed. -/
theorem C4_counterexample :
    parse_sensor_message (some (.vobj [("sensor", .vstr "a"), ("value", .vstr "inf"), ("ts", .vstr "t"), ("status", .vstr "OK")])) = .frame ⟨"a", .inf, "t", "OK"⟩ ∧
    pyFloat (.vstr "inf") = some PyFloat.inf ∧
    PyFloat.isFinite PyFloat.inf = false := by
  refine ⟨?_, ?_, ?_⟩ <;> decide

/-- C4 amended: decode fails closed — it returns malformed for invalid JSON,
for a JSON object missing any of the four required fields, and for a value
field rejected by Python float conversion (a value that parses to a
non-finite number is, however, accepted, so the original finiteness wording
does not hold). -/
theorem C4_decode_fails_closed (j : Option PyVal)
    (h : j = none ∨
      ∃ fields, j = some (.vobj fields) ∧
        (getField fields "sensor" = none ∨ getField fields "value" = none ∨
         getField fields "ts" = none ∨ getField fields "status" = none ∨
         ∃ vv, getField fields "value" = some vv ∧ pyFloat vv = none)) :
    parse_sensor_message j = .malformed := by
  rcases h with h | ⟨fields, hj, hbad⟩
  · rw [h]
    rfl
  · subst hj
    rcases hbad with h1 | h1 | h1 | h1 | ⟨vv, hv, hx⟩
    · exact parse_missing_field fields (Or.inl h1)
    · exact parse_missing_field fields (Or.inr (Or.inl h1))
    · exact parse_missing_field fields (Or.inr (Or.inr (Or.inl h1)))
    · exact parse_missing_field fields (Or.inr (Or.inr (Or.inr h1)))
    · exact parse_bad_value fields vv hv hx

/-- C4 witness: a failed json.loads, a missing ts field, and a
non-numeric value, each decoding to malformed. -/
theorem C4_decode_fails_closed_witness :
    parse_sensor_message none = .malformed ∧
    parse_sensor_message (some (.vobj [("sensor", .vstr "a"), ("value", .vnum (.finite 1)), ("status", .vstr "OK")])) = .malformed ∧
    parse_sensor_message (some (.vobj [("sensor", .vstr "a"), ("value", .vstr "NaNxx"), ("ts", .vstr "t"), ("status", .vstr "OK")])) = .malformed :=
  ⟨C4_decode_fails_closed none (Or.inl rfl),
   C4_decode_fails_closed _ (Or.inr ⟨_, rfl, Or.inr (Or.inr (Or.inl rfl))⟩),
   C4_decode_fails_closed _ (Or.inr ⟨_, rfl, Or.inr (Or.inr (Or.inr (Or.inr ⟨.vstr "NaNxx", rfl, rfl⟩)))⟩)⟩

/-- C2: after any batch of messages followed by a reading for a sensor and
then further readings for other sensors only, the sensor's in_alarm latch is
true iff that (most recent) reading has upper-cased status OK and a value
strictly outside its unchanged low/high limits; any no-alarm sample
(including a FAULT one) leaves the latch false, re-arming it. -/
theorem C2_latch_iff_latest_reading (s : DashState) (now : ℚ) (name : String)
    (st₀ : SensorState) (h₀ : findSensor s name = some st₀)
    (ms₁ ms₂ : List Msg) (v : ℚ) (ts u : String)
    (h₂ : ∀ m ∈ ms₂, Msg.isData m = true ∧ Msg.dataSensor m ≠ some name) :
    ∃ st', findSensor (processMsgs s now (ms₁ ++ .data name v ts u :: ms₂)) name = some st' ∧
      (st'.in_alarm = true ↔ (pyUpper u = "OK" ∧ (v < st₀.low ∨ v > st₀.high))) ∧
      st'.value = some v ∧ st'.status = pyUpper u ∧ st'.ts = ts := by
  obtain ⟨st1, hf1, _, e2, e3⟩ :=
    findSensor_processMsgs_preserve now ms₁ s name st₀ h₀
  rw [processMsgs_append]
  rw [processMsgs_cons]
  rw [processMsg_data_found (processMsgs s now ms₁) now v name ts u st1 hf1]
  have hmid := findSensor_dataStep_self (processMsgs s now ms₁) now v name ts u st1 hf1
  rw [findSensor_processMsgs_untouched now ms₂ _ name h₂, hmid]
  refine ⟨updatedSensor now v ts u st1, rfl, ?_, rfl, rfl, rfl⟩
  show alarmedB v u st1 = true ↔ _
  simp only [alarmedB, e2, e3, Bool.and_eq_true, Bool.or_eq_true,
    decide_eq_true_eq]

/-- C2 witness: an out-of-range OK reading latched after an in-range one,
with a later reading for another sensor in between. -/
theorem C2_latch_iff_latest_reading_witness :
    ∃ st', findSensor (processMsgs (initState [⟨"a", 0, 10⟩]) 0
        ([.data "a" 5 "t0" "OK"] ++ .data "a" 11 "t1" "OK" :: [.data "b" 99 "t2" "OK"])) "a" = some st' ∧
      (st'.in_alarm = true ↔ (pyUpper "OK" = "OK" ∧ ((11 : ℚ) < (initSensor ⟨"a", 0, 10⟩).low ∨ (11 : ℚ) > (initSensor ⟨"a", 0, 10⟩).high))) ∧
      st'.value = some 11 ∧ st'.status = pyUpper "OK" ∧ st'.ts = "t1" :=
  C2_latch_iff_latest_reading (initState [⟨"a", 0, 10⟩]) 0 "a"
    (initSensor ⟨"a", 0, 10⟩) rfl
    [.data "a" 5 "t0" "OK"] [.data "b" 99 "t2" "OK"] 11 "t1" "OK"
    (by
      intro m hm
      rw [List.mem_singleton] at hm
      subst hm
      exact ⟨rfl, by decide⟩)

/-- A sequence of OK-status readings for one sensor from (timestamp, value)
pairs. -/
def mkOKs (name : String) (ps : List (String × ℚ)) : List Msg :=
  ps.map (fun p => Msg.data name p.2 p.1 "OK")

theorem mkOKs_append (name : String) (l1 l2 : List (String × ℚ)) :
    mkOKs name (l1 ++ l2) = mkOKs name l1 ++ mkOKs name l2 := by
  simp [mkOKs]

theorem mkOKs_cons (name : String) (p : String × ℚ) (ps : List (String × ℚ)) :
    mkOKs name (p :: ps) = Msg.data name p.2 p.1 "OK" :: mkOKs name ps := rfl

theorem pyUpper_OK : pyUpper "OK" = "OK" := by decide

theorem alarmedB_OK (v : ℚ) (st : SensorState) :
    alarmedB v "OK" st = (decide (v < st.low) || decide (v > st.high)) := by
  simp [alarmedB, pyUpper_OK]

theorem refreshStatus_fields (s : DashState) :
    (refreshStatus s).sensors = s.sensors ∧
    (refreshStatus s).alarmTable = s.alarmTable ∧
    (refreshStatus s).apiAlarms = s.apiAlarms := by
  simp only [refreshStatus]
  split
  · exact ⟨rfl, rfl, rfl⟩
  · split
    · exact ⟨rfl, rfl, rfl⟩
    · split
      · exact ⟨rfl, rfl, rfl⟩
      · split
        · exact ⟨rfl, rfl, rfl⟩
        · split
          · exact ⟨rfl, rfl, rfl⟩
          · exact ⟨rfl, rfl, rfl⟩

theorem findSensor_initState_in_alarm (cfg : List SensorCfg) (name : String)
    (st₀ : SensorState) (h : findSensor (initState cfg) name = some st₀) :
    st₀.in_alarm = false := by
  have hmem : st₀ ∈ cfg.map initSensor := List.mem_of_find?_eq_some h
  obtain ⟨c, _, hc⟩ := List.mem_map.mp hmem
  rw [← hc]
  rfl

/-- Folded in-range OK readings: the latch ends false if at least one sample
arrives (and is untouched otherwise), the thresholds are unchanged, and no
alarm record is appended. -/
theorem fold_inrange (now : ℚ) (name : String) (ps : List (String × ℚ))
    (s : DashState) (st : SensorState) (h : findSensor s name = some st)
    (hvals : ∀ p ∈ ps, ¬(p.2 < st.low) ∧ ¬(p.2 > st.high)) :
    ∃ st', findSensor (processMsgs s now (mkOKs name ps)) name = some st' ∧
      st'.low = st.low ∧ st'.high = st.high ∧
      st'.in_alarm = (if ps.isEmpty then st.in_alarm else false) ∧
      (processMsgs s now (mkOKs name ps)).alarmTable = s.alarmTable ∧
      (processMsgs s now (mkOKs name ps)).apiAlarms = s.apiAlarms := by
  induction ps generalizing s st with
  | nil => exact ⟨st, h, rfl, rfl, by simp, rfl, rfl⟩
  | cons p ps ih =>
      obtain ⟨hlo, hhi⟩ := hvals p (List.mem_cons_self p ps)
      have hal : alarmedB p.2 "OK" st = false := by
        rw [alarmedB_OK]
        simp [hlo, hhi]
      have hfir : firedB p.2 "OK" st = false := by
        simp [firedB, hal]
      rw [mkOKs_cons, processMsgs_cons,
        processMsg_data_found s now p.2 name p.1 "OK" st h]
      have hf2 := findSensor_dataStep_self s now p.2 name p.1 "OK" st h
      have hin2 : (updatedSensor now p.2 p.1 "OK" st).in_alarm = false := hal
      have hlow2 : (updatedSensor now p.2 p.1 "OK" st).low = st.low := rfl
      have hhigh2 : (updatedSensor now p.2 p.1 "OK" st).high = st.high := rfl
      obtain ⟨st', hst', e1, e2, e3, e4, e5⟩ :=
        ih (dataStep s now p.2 name p.1 "OK" st)
          (updatedSensor now p.2 p.1 "OK" st) hf2
          (by
            intro q hq
            obtain ⟨q1, q2⟩ := hvals q (List.mem_cons_of_mem p hq)
            rw [hlow2, hhigh2]
            exact ⟨q1, q2⟩)
      obtain ⟨ha, hb⟩ := dataStep_alarms_nofire s now p.2 name p.1 "OK" st hfir
      refine ⟨st', hst', by rw [e1, hlow2], by rw [e2, hhigh2], ?_,
        by rw [e4, ha], by rw [e5, hb]⟩
      rw [e3]
      by_cases hps : ps.isEmpty
      · simp [hps, hin2]
      · simp [hps]

/-- Folded above-range OK readings while the latch is already set: the latch
stays set, thresholds are unchanged, and no further record is appended. -/
theorem fold_above_latched (now : ℚ) (name : String) (ps : List (String × ℚ))
    (s : DashState) (st : SensorState) (h : findSensor s name = some st)
    (hin : st.in_alarm = true) (hvals : ∀ p ∈ ps, st.high < p.2) :
    ∃ st', findSensor (processMsgs s now (mkOKs name ps)) name = some st' ∧
      st'.low = st.low ∧ st'.high = st.high ∧ st'.in_alarm = true ∧
      (processMsgs s now (mkOKs name ps)).alarmTable = s.alarmTable ∧
      (processMsgs s now (mkOKs name ps)).apiAlarms = s.apiAlarms := by
  induction ps generalizing s st with
  | nil => exact ⟨st, h, rfl, rfl, hin, rfl, rfl⟩
  | cons p ps ih =>
      have hhi : st.high < p.2 := hvals p (List.mem_cons_self p ps)
      have hal : alarmedB p.2 "OK" st = true := by
        rw [alarmedB_OK]
        simp [hhi]
      have hfir : firedB p.2 "OK" st = false := by
        simp [firedB, hin]
      rw [mkOKs_cons, processMsgs_cons,
        processMsg_data_found s now p.2 name p.1 "OK" st h]
      have hf2 := findSensor_dataStep_self s now p.2 name p.1 "OK" st h
      have hin2 : (updatedSensor now p.2 p.1 "OK" st).in_alarm = true := hal
      obtain ⟨st', hst', e1, e2, e3, e4, e5⟩ :=
        ih (dataStep s now p.2 name p.1 "OK" st)
          (updatedSensor now p.2 p.1 "OK" st) hf2 hin2
          (fun q hq => hvals q (List.mem_cons_of_mem p hq))
      obtain ⟨ha, hb⟩ := dataStep_alarms_nofire s now p.2 name p.1 "OK" st hfir
      exact ⟨st', hst', e1, e2, e3, by rw [e4, ha], by rw [e5, hb]⟩

/-- C1: from startup, a run of in-range OK readings, then N ≥ 2 consecutive
readings above the high limit, then a return inside [low, high], appends
exactly one HIGH_LIMIT alarm record — timestamped and valued at the first
out-of-range sample — to the alarm table and to the store ring, and the
latch ends false. -/
theorem C1_edge_triggered_single_alarm (cfg : List SensorCfg) (name : String)
    (now : ℚ) (st₀ : SensorState)
    (h₀ : findSensor (initState cfg) name = some st₀)
    (hlh : st₀.low ≤ st₀.high)
    (pre abv post : List (String × ℚ)) (a0 : String × ℚ)
    (hpre : ∀ p ∈ pre, st₀.low ≤ p.2 ∧ p.2 ≤ st₀.high)
    (habv : ∀ p ∈ abv, st₀.high < p.2)
    (hN : 2 ≤ abv.length)
    (ha0 : abv.head? = some a0)
    (hpost : ∀ p ∈ post, st₀.low ≤ p.2 ∧ p.2 ≤ st₀.high)
    (hpostne : post ≠ []) :
    (onTimerTick (initState cfg) now (mkOKs name (pre ++ abv ++ post))).alarmTable =
      [⟨a0.1, name, a0.2, "HIGH_LIMIT"⟩] ∧
    (onTimerTick (initState cfg) now (mkOKs name (pre ++ abv ++ post))).apiAlarms =
      [⟨a0.1, name, a0.2, "HIGH_LIMIT"⟩] ∧
    ∃ stf, findSensor (onTimerTick (initState cfg) now (mkOKs name (pre ++ abv ++ post))) name = some stf ∧
      stf.in_alarm = false := by
  have hin0 : st₀.in_alarm = false := findSensor_initState_in_alarm cfg name st₀ h₀
  obtain ⟨rest, habv_eq⟩ : ∃ rest, abv = a0 :: rest := by
    cases habv' : abv with
    | nil => rw [habv'] at hN; simp at hN
    | cons x xs =>
        rw [habv'] at ha0
        simp only [List.head?_cons, Option.some.injEq] at ha0
        exact ⟨xs, by rw [ha0]⟩
  subst habv_eq
  -- phase 1: the in-range leading run
  obtain ⟨st1, hf1, e1lo, e1hi, e1in, e1T, e1A⟩ :=
    fold_inrange now name pre (initState cfg) st₀ h₀
      (by
        intro p hp
        obtain ⟨q1, q2⟩ := hpre p hp
        exact ⟨not_lt.mpr q1, not_lt.mpr q2⟩)
  have hin1 : st1.in_alarm = false := by
    rw [e1in]
    by_cases hp : pre.isEmpty
    · simp [hp, hin0]
    · simp [hp]
  set s1 := processMsgs (initState cfg) now (mkOKs name pre) with hs1
  have hT1 : s1.alarmTable = [] := e1T
  have hA1 : s1.apiAlarms = [] := e1A
  -- phase 2: first above-range sample fires exactly one HIGH_LIMIT record
  have hab0 : st₀.high < a0.2 := habv a0 (List.mem_cons_self a0 rest)
  have hal : alarmedB a0.2 "OK" st1 = true := by
    rw [alarmedB_OK]
    have : st1.high < a0.2 := by rw [e1hi]; exact hab0
    simp [this]
  have hfir : firedB a0.2 "OK" st1 = true := by
    simp [firedB, hal, hin1]
  have hnotlow : ¬(a0.2 < st1.low) := by
    rw [e1lo]
    exact not_lt.mpr (le_trans hlh (le_of_lt hab0))
  have hname1 : st1.name = name := findSensor_name hf1
  obtain ⟨hT2, hA2⟩ := dataStep_alarms_fire s1 now a0.2 name a0.1 "OK" st1 hfir
    (by rw [hT1]; simp) (by rw [hA1]; simp)
  rw [if_neg hnotlow] at hT2 hA2
  rw [hT1] at hT2
  rw [hA1] at hA2
  rw [List.nil_append] at hT2 hA2
  have hf2 := findSensor_dataStep_self s1 now a0.2 name a0.1 "OK" st1 hf1
  have hin2 : (updatedSensor now a0.2 a0.1 "OK" st1).in_alarm = true := hal
  set s2 := dataStep s1 now a0.2 name a0.1 "OK" st1 with hs2
  -- phase 3: remaining above-range samples append nothing
  obtain ⟨st3, hf3, e3lo, e3hi, e3in, e3T, e3A⟩ :=
    fold_above_latched now name rest s2 (updatedSensor now a0.2 a0.1 "OK" st1)
      hf2 hin2
      (by
        intro q hq
        show (updatedSensor now a0.2 a0.1 "OK" st1).high < q.2
        have : (updatedSensor now a0.2 a0.1 "OK" st1).high = st₀.high := e1hi
        rw [this]
        exact habv q (List.mem_cons_of_mem a0 hq))
  set s3 := processMsgs s2 now (mkOKs name rest) with hs3
  -- phase 4: the return inside range appends nothing and clears the latch
  obtain ⟨st4, hf4, e4lo, e4hi, e4in, e4T, e4A⟩ :=
    fold_inrange now name post s3 st3 hf3
      (by
        intro p hp
        obtain ⟨q1, q2⟩ := hpost p hp
        have hlo : st3.low = st₀.low := by
          rw [e3lo]
          exact e1lo
        have hhi : st3.high = st₀.high := by
          rw [e3hi]
          exact e1hi
        rw [hlo, hhi]
        exact ⟨not_lt.mpr q1, not_lt.mpr q2⟩)
  have hin4 : st4.in_alarm = false := by
    rw [e4in, if_neg (by simpa [List.isEmpty_iff] using hpostne)]
  -- assemble: the tick is the fold followed by the refresh
  have hsplit : processMsgs (initState cfg) now (mkOKs name (pre ++ (a0 :: rest) ++ post)) =
      processMsgs s3 now (mkOKs name post) := by
    rw [mkOKs_append, mkOKs_append, processMsgs_append, processMsgs_append,
      ← hs1, mkOKs_cons, processMsgs_cons, processMsg_data_found s1 now a0.2 name a0.1 "OK" st1 hf1,
      ← hs2, ← hs3]
  obtain ⟨rS, rT, rA⟩ := refreshStatus_fields (processMsgs (initState cfg) now (mkOKs name (pre ++ (a0 :: rest) ++ post)))
  refine ⟨?_, ?_, st4, ?_, hin4⟩
  · show (refreshStatus _).alarmTable = _
    rw [rT, hsplit, e4T, e3T, hT2, hname1]
  · show (refreshStatus _).apiAlarms = _
    rw [rA, hsplit, e4A, e3A, hA2, hname1]
  · show (refreshStatus _).sensors.find? _ = _
    rw [rS]
    rw [show (processMsgs (initState cfg) now (mkOKs name (pre ++ (a0 :: rest) ++ post))).sensors.find? (fun x => x.name == name) = findSensor (processMsgs (initState cfg) now (mkOKs name (pre ++ (a0 :: rest) ++ post))) name from rfl]
    rw [hsplit]
    exact hf4

/-- C1 witness: the end-to-end example of the specification — Temp_C with
low 20 and high 30, readings 25, 35, 36, 22, all OK. -/
theorem C1_edge_triggered_single_alarm_witness :
    (onTimerTick (initState [⟨"Temp_C", 20, 30⟩]) 0 (mkOKs "Temp_C" ([("t1", 25)] ++ [("t2", 35), ("t3", 36)] ++ [("t4", 22)]))).alarmTable =
      [⟨"t2", "Temp_C", 35, "HIGH_LIMIT"⟩] ∧
    (onTimerTick (initState [⟨"Temp_C", 20, 30⟩]) 0 (mkOKs "Temp_C" ([("t1", 25)] ++ [("t2", 35), ("t3", 36)] ++ [("t4", 22)]))).apiAlarms =
      [⟨"t2", "Temp_C", 35, "HIGH_LIMIT"⟩] ∧
    ∃ stf, findSensor (onTimerTick (initState [⟨"Temp_C", 20, 30⟩]) 0 (mkOKs "Temp_C" ([("t1", 25)] ++ [("t2", 35), ("t3", 36)] ++ [("t4", 22)]))) "Temp_C" = some stf ∧
      stf.in_alarm = false :=
  C1_edge_triggered_single_alarm [⟨"Temp_C", 20, 30⟩] "Temp_C" 0
    (initSensor ⟨"Temp_C", 20, 30⟩) rfl (by norm_num [initSensor])
    [("t1", 25)] [("t2", 35), ("t3", 36)] [("t4", 22)] ("t2", 35)
    (by
      intro p hp
      rw [List.mem_singleton] at hp
      subst hp
      constructor <;> norm_num [initSensor])
    (by
      intro p hp
      rcases List.mem_cons.mp hp with h | h
      · subst h; norm_num [initSensor]
      · rw [List.mem_singleton] at h; subst h; norm_num [initSensor])
    (by norm_num)
    rfl
    (by
      intro p hp
      rw [List.mem_singleton] at hp
      subst hp
      constructor <;> norm_num [initSensor])
    (by simp)

theorem all_updateSensorNamed (l : List SensorState) (n : String)
    (st2 : SensorState) (p : SensorState → Bool) (hall : l.all p = true)
    (h2 : p st2 = true) : (updateSensorNamed l n st2).all p = true := by
  rw [List.all_eq_true] at *
  intro x hx
  obtain ⟨y, hy, hxy⟩ := List.mem_map.mp hx
  by_cases hyn : y.name = n
  · have : x = st2 := by
      rw [← hxy]
      simp [hyn]
    rw [this]
    exact h2
  · have : x = y := by
      rw [← hxy]
      simp [hyn]
    rw [this]
    exact hall y hy

theorem updatedSensor_latch_consistent (now v : ℚ) (ts u : String)
    (st : SensorState) :
    (updatedSensor now v ts u st).in_alarm = isAlarmNow (updatedSensor now v ts u st) := rfl

theorem resetSensor_latch_consistent (st : SensorState) :
    (resetSensorToDefault st).in_alarm = isAlarmNow (resetSensorToDefault st) := rfl

theorem invAlarmB_processMsg (s : DashState) (now : ℚ) (m : Msg)
    (h : invAlarmB s = true) : invAlarmB (processMsg s now m) = true := by
  cases m with
  | conn cs =>
      by_cases h1 : cs = "LISTENING"
      · simpa [processMsg, h1, invAlarmB] using h
      · by_cases h2 : cs = "CONNECTED"
        · simpa [processMsg, h1, h2, invAlarmB] using h
        · by_cases h3 : cs = "DISCONNECTED"
          · simp only [processMsg, h1, h2, h3, if_false, if_true, invAlarmB,
              resetAllSensors]
            rw [List.all_eq_true]
            intro x hx
            obtain ⟨y, _, hxy⟩ := List.mem_map.mp hx
            rw [← hxy]
            simp [resetSensor_latch_consistent]
          · simpa [processMsg, h1, h2, h3, invAlarmB] using h
  | simLog => exact h
  | simSnapshot => exact h
  | data n v ts u =>
      cases hfs : findSensor s n with
      | none => rwa [processMsg_data_notfound s now v n ts u hfs]
      | some st =>
          rw [processMsg_data_found s now v n ts u st hfs]
          show (dataStep s now v n ts u st).sensors.all _ = true
          rw [dataStep_sensors]
          refine all_updateSensorNamed s.sensors n _ _ h ?_
          rw [updatedSensor_latch_consistent]
          exact beq_self_eq_true _

theorem invAlarmB_processMsgs (s : DashState) (now : ℚ) (msgs : List Msg)
    (h : invAlarmB s = true) : invAlarmB (processMsgs s now msgs) = true := by
  induction msgs generalizing s with
  | nil => exact h
  | cons m ms ih =>
      rw [processMsgs_cons]
      exact ih (processMsg s now m) (invAlarmB_processMsg s now m h)

theorem connInvB_processMsg (s : DashState) (now : ℚ) (m : Msg)
    (h : connInvB s = true) : connInvB (processMsg s now m) = true := by
  cases m with
  | conn cs =>
      by_cases h1 : cs = "LISTENING"
      · simp [processMsg, h1, connInvB]
      · by_cases h2 : cs = "CONNECTED"
        · simp [processMsg, h1, h2, connInvB]
        · by_cases h3 : cs = "DISCONNECTED"
          · simp [processMsg, h1, h2, h3, connInvB]
          · simpa [processMsg, h1, h2, h3] using h
  | simLog => exact h
  | simSnapshot => exact h
  | data n v ts u =>
      cases hfs : findSensor s n with
      | none => rwa [processMsg_data_notfound s now v n ts u hfs]
      | some st =>
          rw [processMsg_data_found s now v n ts u st hfs]
          simp only [connInvB, Bool.and_eq_true] at h
          simp only [connInvB, dataStep_clientConnected,
            dataStep_hasReceivedData, dataStep_globalStatus,
            Bool.and_eq_true, Bool.not_true, Bool.and_false]
          exact ⟨h.1, by simp⟩

theorem connInvB_processMsgs (s : DashState) (now : ℚ) (msgs : List Msg)
    (h : connInvB s = true) : connInvB (processMsgs s now msgs) = true := by
  induction msgs generalizing s with
  | nil => exact h
  | cons m ms ih =>
      rw [processMsgs_cons]
      exact ih (processMsg s now m) (connInvB_processMsg s now m h)

theorem any_in_alarm_eq (l : List SensorState)
    (h : l.all (fun st => st.in_alarm == isAlarmNow st) = true) :
    l.any (fun st => st.in_alarm) = l.any isAlarmNow := by
  induction l with
  | nil => rfl
  | cons hd tl ih =>
      rw [List.all_cons, Bool.and_eq_true] at h
      have he : hd.in_alarm = isAlarmNow hd := by
        have := h.1
        rwa [beq_iff_eq] at this
      rw [List.any_cons, List.any_cons, he, ih h.2]

/-- C5: whenever the per-sensor latches agree with their latest readings and
the connection flags agree with the banner (both hold from startup and are
preserved by every message), the global status after a full tick equals the
spec's strict precedence ALARM > WARNING > OK > CONNECTED / LISTENING over
the resulting per-sensor states. -/
theorem C5_global_status_precedence (s : DashState) (now : ℚ)
    (msgs : List Msg) (hA : invAlarmB s = true) (hC : connInvB s = true) :
    (onTimerTick s now msgs).globalStatus =
      derivedGlobalStatus (onTimerTick s now msgs) := by
  have hA1 : invAlarmB (processMsgs s now msgs) = true :=
    invAlarmB_processMsgs s now msgs hA
  have hC1 : connInvB (processMsgs s now msgs) = true :=
    connInvB_processMsgs s now msgs hC
  set s1 := processMsgs s now msgs with hs1
  show (refreshStatus s1).globalStatus = derivedGlobalStatus (refreshStatus s1)
  have hEq : s1.sensors.any (fun st => st.in_alarm) = s1.sensors.any isAlarmNow :=
    any_in_alarm_eq s1.sensors (by simpa [invAlarmB] using hA1)
  cases hcb : s1.clientConnected with
  | false =>
      have hr : refreshStatus s1 = s1 := by
        simp [refreshStatus, hcb]
      have hL : s1.globalStatus = "LISTENING" := by
        simp only [connInvB, hcb, Bool.false_and, Bool.and_eq_true] at hC1
        have := hC1.1
        simp only [if_neg (by simp : ¬ (false = true))] at this
        rwa [beq_iff_eq] at this
      rw [hr]
      simp only [derivedGlobalStatus, hcb, if_pos rfl]
      exact hL
  | true =>
      cases hdb : s1.hasReceivedData with
      | false =>
          have hr : refreshStatus s1 = { s1 with globalStatus := "CONNECTED" } := by
            simp [refreshStatus, hcb, hdb]
          rw [hr]
          simp [derivedGlobalStatus, hcb, hdb]
      | true =>
          by_cases ha : s1.sensors.any isAlarmNow = true
          · have hr : refreshStatus s1 = { s1 with globalStatus := "ALARM" } := by
              simp [refreshStatus, hcb, hdb, ha]
            rw [hr]
            simp [derivedGlobalStatus, hcb, hdb, hEq, ha]
          · by_cases hf : s1.sensors.any (fun st => decide (st.status = "FAULT")) = true
            · have hr : refreshStatus s1 = { s1 with globalStatus := "WARNING" } := by
                simp only [refreshStatus, hcb, hdb]
                simp [ha, hf]
              rw [hr]
              simp [derivedGlobalStatus, hcb, hdb, hEq, ha, hf]
            · by_cases ho : s1.sensors.any (fun st => decide (st.status = "OK")) = true
              · have hr : refreshStatus s1 = { s1 with globalStatus := "OK" } := by
                  simp only [refreshStatus, hcb, hdb]
                  simp [ha, hf, ho]
                rw [hr]
                simp [derivedGlobalStatus, hcb, hdb, hEq, ha, hf, ho]
              · have hr : refreshStatus s1 = { s1 with globalStatus := "CONNECTED" } := by
                  simp only [refreshStatus, hcb, hdb]
                  simp [ha, hf, ho]
                rw [hr]
                simp [derivedGlobalStatus, hcb, hdb, hEq, ha, hf, ho]

/-- C5 witness: both invariants hold at startup; one tick carrying a
connect event and an out-of-range OK reading. -/
theorem C5_global_status_precedence_witness :
    (onTimerTick (initState [⟨"a", 0, 10⟩]) 0 [.conn "CONNECTED", .data "a" 11 "t" "OK"]).globalStatus =
      derivedGlobalStatus (onTimerTick (initState [⟨"a", 0, 10⟩]) 0 [.conn "CONNECTED", .data "a" 11 "t" "OK"]) :=
  C5_global_status_precedence (initState [⟨"a", 0, 10⟩]) 0
    [.conn "CONNECTED", .data "a" 11 "t" "OK"] (by decide) (by decide)

end Dashboard
